import Mathlib

/-!
Verification of the whois lookup relay's normalization core.

The Python source is shallowly embedded: raw provider JSON becomes `JValue`,
Python exceptions become the `Except PyExc` monad, `dict.get` becomes `jget`
(raising `AttributeError` on non-dict receivers, as Python does), Python
truthiness becomes `truthy`, and naive/aware datetimes become `PyDateTime`
(wall-clock seconds plus an optional timezone offset). The permissive
third-party date-string parser is an oracle parameter
`parse : String → Option PyDateTime`; everything the repository itself does
around it (candidate search order, truthiness checks, timezone stripping,
swallowing of parse failures) is embedded from the source.
-/

namespace Whois

/-- A JSON-like value as handled by the Python service. -/
inductive JValue where
  | null
  | bool (b : Bool)
  | num (n : Int)
  | str (s : String)
  | arr (elems : List JValue)
  | obj (fields : List (String × JValue))

/-- The Python exceptions the embedded code can raise or construct. -/
inductive PyExc where
  | attributeError
  | typeError
  | validationError
  | generic (msg : String)
  | httpException (status : Nat) (detail : String)
  | jsonDecodeError (msg : String)
  deriving DecidableEq, Repr

/-- First binding of key `k` in an association list (Python dict lookup). -/
def lookupFirst (kvs : List (String × JValue)) (k : String) : Option JValue :=
  match kvs with
  | [] => none
  | (k0, v) :: rest => if k0 = k then some v else lookupFirst rest k

/-- Python truthiness of a JSON value. -/
def truthy : JValue → Bool
  | .null => false
  | .bool b => b
  | .num n => n != 0
  | .str s => s != ""
  | .arr xs => !xs.isEmpty
  | .obj kvs => !kvs.isEmpty

/-- Python `v.get(k, dflt)`: returns the stored value or the default for a
dict, and raises `AttributeError` when the receiver is not a dict. -/
def jget (v : JValue) (k : String) (dflt : JValue) : Except PyExc JValue :=
  match v with
  | .obj kvs => .ok ((lookupFirst kvs k).getD dflt)
  | _ => .error .attributeError

/-- Python `k in v` for the dict case; a non-dict receiver raises. -/
def jmem (v : JValue) (k : String) : Except PyExc Bool :=
  match v with
  | .obj kvs => .ok (lookupFirst kvs k).isSome
  | _ => .error .typeError

/-- A Python `datetime`: naive wall-clock seconds, plus the timezone offset
when the value is timezone-aware. -/
structure PyDateTime where
  seconds : Int
  tzOffset : Option Int
  deriving DecidableEq, Repr

/-- `dt.replace(tzinfo=None)`: drop the offset, keep the wall clock. -/
def stripTz (dt : PyDateTime) : PyDateTime := { dt with tzOffset := none }

/-- One pass of the name-server loop in `_extract_hostnames`: plain strings
are kept as-is, dict entries contribute their `hostName` value, anything
else is skipped; a non-list input contributes nothing. -/
def collectHostnames (ns : JValue) : List JValue :=
  match ns with
  | .arr servers => servers.filterMap (fun server =>
      match server with
      | .obj kvs => lookupFirst kvs "hostName"
      | .str s => some (.str s)
      | _ => none)
  | _ => []

/-- Python `", ".join(...)` operand check: every element must be a string,
otherwise `TypeError`. -/
def strItems (vs : List JValue) : Except PyExc (List String) :=
  match vs with
  | [] => .ok []
  | .str s :: rest => (strItems rest).map (fun ss => s :: ss)
  | _ :: _ => .error .typeError

/-- Python string slicing `s[:n]` (first `n` code points). -/
def pyTake (s : String) (n : Nat) : String := String.mk (s.data.take n)

/-- `WhoisService._extract_hostnames`, embedded from the source. -/
def _extract_hostnames (data : JValue) : Except PyExc String :=
  (jget data "nameServers" (.arr [])).bind fun ns0 =>
  let hostnames := collectHostnames ns0
  (if hostnames.isEmpty then
    (jmem data "registryData").bind fun hasRd =>
    if hasRd then
      (jget data "registryData" (.obj [])).bind fun rd =>
      (jget rd "nameServers" (.arr [])).bind fun ns1 =>
      .ok (collectHostnames ns1)
    else .ok hostnames
  else .ok hostnames).bind fun hostnames2 =>
  if hostnames2.isEmpty then .ok ""
  else
    (strItems hostnames2).bind fun strs =>
    let hostname_str := String.intercalate ", " strs
    if hostname_str.length > 25 then .ok (pyTake hostname_str 22 ++ "...")
    else .ok hostname_str

/-- The `try` block of `_parse_date`: when the found candidate is truthy,
run the permissive parser on it and strip the timezone; a parse failure
(`ValueError`) or non-string operand (`TypeError`) is caught by the
source's `except (ValueError, TypeError)` and becomes `None`. -/
def parseCandidate (parse : String → Option PyDateTime) (v : JValue) :
    Option PyDateTime :=
  if truthy v then
    match v with
    | .str s => (parse s).map stripTz
    | _ => none
  else none

/-- `WhoisService._parse_date`, embedded from the source; `parse` is the
oracle for the permissive third-party date-string parser. -/
def _parse_date (parse : String → Option PyDateTime) (data : JValue) (key : String) :
    Except PyExc (Option PyDateTime) :=
  (jget data key .null).bind fun d0 =>
  (if !truthy d0 then
    (jmem data "registryData").bind fun hasRd =>
    if hasRd then
      (jget data "registryData" (.obj [])).bind fun rd =>
      jget rd key .null
    else .ok d0
  else .ok d0).bind fun d1 =>
  (if !truthy d1 then
    (jget data "registryData" (.obj [])).bind fun rd =>
    (jget rd "registry" (.obj [])).bind fun rg =>
    jget rg key .null
  else .ok d1).bind fun d2 =>
  .ok (parseCandidate parse d2)

/-- `WhoisService._get_contact_info`, embedded from the source. -/
def _get_contact_info (domain_data registry_data : JValue) (contact_type : String) :
    Except PyExc JValue :=
  (jget registry_data (contact_type ++ "Contact") (.obj [])).bind fun c1 =>
  if !truthy c1 then
    (jget domain_data (contact_type ++ "Contact") (.obj [])).bind fun c2 =>
    if !truthy c2 then jget domain_data "registrant" (.obj [])
    else .ok c2
  else .ok c1

/-- The `DomainInformation` pydantic model; fields as validated by its
constructor. -/
structure DomainInformation where
  domain_name : String
  registrar : Option String
  registration_date : Option PyDateTime
  expiration_date : Option PyDateTime
  estimated_domain_age : Option Int
  hostnames : Option String
  deriving DecidableEq, Repr

/-- Pydantic validation for a required `str` field: non-string input is a
`ValidationError`. -/
def validateStr : JValue → Except PyExc String
  | .str s => .ok s
  | _ => .error .validationError

/-- Pydantic validation for an `Optional[str]` field. -/
def validateOptStr : JValue → Except PyExc (Option String)
  | .str s => .ok (some s)
  | .null => .ok none
  | _ => .error .validationError

/-- The `ContactInformation` pydantic model. Its fields are set by plain
attribute assignment after construction, which pydantic does not validate,
so they hold raw values. -/
structure ContactInformation where
  registrant_name : JValue
  technical_contact_name : JValue
  administrative_contact_name : JValue
  contact_email : JValue

/-- Second half of `WhoisService.parse_domain_information` (source lines
70-93): date resolution, the age computation, hostname extraction, and the
validated construction of the `DomainInformation` model. `now` is the
wall-clock seconds of the timezone-naive `datetime.now()`. -/
def domTail (parse : String → Option PyDateTime) (now : Int)
    (whois_record domain_name registrar_data : JValue) :
    Except PyExc DomainInformation :=
  (_parse_date parse whois_record "createdDate").bind fun registration_date =>
  (_parse_date parse whois_record "expiresDate").bind fun expiration_date =>
  (_extract_hostnames whois_record).bind fun hostnames =>
  (validateStr domain_name).bind fun dn =>
  (validateOptStr registrar_data).bind fun rg =>
  .ok { domain_name := dn, registrar := rg,
        registration_date := registration_date,
        expiration_date := expiration_date,
        estimated_domain_age :=
          match registration_date with
          | some rd => some (((now - rd.seconds).fdiv 86400).fdiv 365)
          | none => none,
        hostnames := some hostnames }

/-- `WhoisService.parse_domain_information`, embedded from the source:
record extraction, the registrar fallback, then `domTail`. -/
def parse_domain_information (parse : String → Option PyDateTime) (now : Int)
    (data : JValue) : Except PyExc DomainInformation :=
  (jget data "WhoisRecord" (.obj [])).bind fun whois_record =>
  (jget whois_record "domainName" (.str "")).bind fun domain_name =>
  (jget whois_record "registrarName" (.str "")).bind fun r0 =>
  (if !truthy r0 then
    (jmem whois_record "registrar").bind fun hasReg =>
    if hasReg then
      (jget whois_record "registrar" (.obj [])).bind fun rg =>
      jget rg "name" (.str "")
    else .ok r0
  else .ok r0).bind fun registrar_data =>
  domTail parse now whois_record domain_name registrar_data

/-- `WhoisService.parse_contact_information`, embedded from the source. -/
def parse_contact_information (data : JValue) : Except PyExc ContactInformation :=
  (jget data "WhoisRecord" (.obj [])).bind fun whois_record =>
  (jget whois_record "registryData" (.obj [])).bind fun registry_data =>
  (jget registry_data "contactEmail" (.str "")).bind fun ce0 =>
  (if !truthy ce0 then jget whois_record "contactEmail" (.str "")
   else .ok ce0).bind fun contacts =>
  (_get_contact_info whois_record registry_data "registrant").bind fun registrant =>
  (jget registrant "name" (.str "")).bind fun rname =>
  (_get_contact_info whois_record registry_data "technical").bind fun technical =>
  (jget technical "name" (.str "")).bind fun tname =>
  (_get_contact_info whois_record registry_data "administrative").bind fun admin =>
  (jget admin "name" (.str "")).bind fun aname =>
  .ok { registrant_name := rname, technical_contact_name := tname,
        administrative_contact_name := aname, contact_email := contacts }

/-- Outcome of the single upstream HTTP call made by
`WhoisService.fetch_domain_data`: a JSON body, an `httpx.HTTPError`
(non-2xx raised by `raise_for_status`, or a network/timeout failure), or a
body that `response.json()` cannot decode. -/
inductive FetchOutcome where
  | success (doc : JValue)
  | httpError (msg : String)
  | invalidJson (msg : String)

/-- `WhoisService.fetch_domain_data`, embedded from the source: an
`httpx.HTTPError` is caught and re-raised as
`Exception("Failed to fetch domain information: " + str(e))`; a JSON
decoding failure is not an `httpx.HTTPError` and propagates as-is. -/
def fetch_domain_data : FetchOutcome → Except PyExc JValue
  | .success doc => .ok doc
  | .httpError msg => .error (.generic ("Failed to fetch domain information: " ++ msg))
  | .invalidJson msg => .error (.jsonDecodeError msg)

/-- Python `str(e)` for the embedded exceptions (Starlette's
`HTTPException.__str__` is `f"{status_code}: {detail}"`). -/
def pyStr : PyExc → String
  | .attributeError => "AttributeError"
  | .typeError => "TypeError"
  | .validationError => "ValidationError"
  | .generic msg => msg
  | .httpException status detail => toString status ++ ": " ++ detail
  | .jsonDecodeError msg => msg

/-- Python `s.lower()` (character-wise lowercasing; the embedded route only
compares against the ASCII literals `"domain"` and `"contact"`). -/
def pyLower (s : String) : String := String.mk (s.data.map Char.toLower)

/-- The union response type of the `/api/whois` route. -/
inductive WhoisResponse where
  | domain (d : DomainInformation)
  | contact (c : ContactInformation)

/-- Result of one invocation of the route handler: whether the upstream
fetch was attempted, and the response or raised `HTTPException`. -/
structure HandlerResult where
  fetchAttempted : Bool
  outcome : Except PyExc WhoisResponse

/-- The `/api/whois` route handler `get_whois_data`, embedded from the
source: the whole body sits in one `try` whose `except Exception` re-raises
every failure — including the handler's own 400 `HTTPException` for a bad
`info_type` — as `HTTPException(500, str(e))`. The upstream fetch is the
first statement of the `try`, before `info_type` is inspected. -/
def get_whois_data (parse : String → Option PyDateTime) (now : Int)
    (info_type : String) (fetch : FetchOutcome) : HandlerResult :=
  let body : Except PyExc WhoisResponse :=
    (fetch_domain_data fetch).bind fun whois_data =>
    if pyLower info_type = "domain" then
      (parse_domain_information parse now whois_data).map .domain
    else if pyLower info_type = "contact" then
      (parse_contact_information whois_data).map .contact
    else
      .error (.httpException 400
        ("Invalid info_type: " ++ info_type ++ ". Must be 'domain' or 'contact'"))
  { fetchAttempted := true
    outcome :=
      match body with
      | .ok v => .ok v
      | .error e => .error (.httpException 500 (pyStr e)) }

/-! ## Well-formedness predicates

The normalizer is only exception-free on documents whose *intermediate*
containers have the types the `.get` chains assume; these decidable
predicates state sufficient conditions, used by the amended claims. -/

/-- The value, when present, is an object. -/
def wfOptObj (o : Option JValue) : Bool :=
  match o with
  | some (.obj _) => true
  | some _ => false
  | none => true

/-- The value, when present, is a string. -/
def wfOptStr (o : Option JValue) : Bool :=
  match o with
  | some (.str _) => true
  | some _ => false
  | none => true

/-- The value, when present, is a string or `None`. -/
def wfStrOrNull (o : Option JValue) : Bool :=
  match o with
  | some (.str _) => true
  | some .null => true
  | none => true
  | some _ => false

/-- A usable name-server value: if it is a list, every dict entry's
`hostName` is a string (so the final join cannot raise); non-list values
are skipped by the code and are always fine. -/
def wfNS (v : JValue) : Bool :=
  match v with
  | .arr es => es.all fun e =>
      match e with
      | .obj kvs => wfOptStr (lookupFirst kvs "hostName")
      | _ => true
  | _ => true

/-- Sufficient condition for `_parse_date` not to raise on an object:
`registryData`, when present, is an object, and its `registry` member,
when present, is an object. -/
def wfDates (kvs : List (String × JValue)) : Bool :=
  match lookupFirst kvs "registryData" with
  | some (.obj rdkvs) => wfOptObj (lookupFirst rdkvs "registry")
  | some _ => false
  | none => true

/-- Sufficient condition for `_extract_hostnames` not to raise:
`registryData`, when present, is an object, and both name-server lists are
usable. -/
def wfHosts (kvs : List (String × JValue)) : Bool :=
  (match lookupFirst kvs "registryData" with
   | some (.obj rdkvs) => wfNS ((lookupFirst rdkvs "nameServers").getD (.arr []))
   | some _ => false
   | none => true) &&
  wfNS ((lookupFirst kvs "nameServers").getD (.arr []))

/-- Sufficient condition for the registrar fallback not to raise and to
produce a pydantic-valid value: `registrar`, when present, is an object
whose `name`, when present, is a string or `None`. -/
def wfRegistrar (kvs : List (String × JValue)) : Bool :=
  match lookupFirst kvs "registrar" with
  | some (.obj rkvs) => wfStrOrNull (lookupFirst rkvs "name")
  | some _ => false
  | none => true

/-- Sufficient condition for the whole domain normalizer not to raise on a
whois record object: well-typed intermediate containers plus string-typed
(`domainName`, `registrarName`, `registrar.name`) leaves where the pydantic
model requires strings. -/
def wfRecord (wr : JValue) : Bool :=
  match wr with
  | .obj kvs =>
    wfOptStr (lookupFirst kvs "domainName") &&
    wfStrOrNull (lookupFirst kvs "registrarName") &&
    wfRegistrar kvs &&
    wfDates kvs &&
    wfHosts kvs
  | _ => false

/-- Sufficient condition for `parse_domain_information` not to raise. -/
def wfDomainDoc (data : JValue) : Bool :=
  match data with
  | .obj kvs => wfRecord ((lookupFirst kvs "WhoisRecord").getD (.obj []))
  | _ => false

/-- Modelled from the spec's sec. 4.1 wording, for comparison against the
source's `_parse_date`: take the first non-empty candidate among
`doc[field_key]`, `doc["registryData"][field_key]`, and
`doc["registryData"]["registry"][field_key]`; parse the chosen value,
discarding any timezone offset; a parse failure or the absence of every
candidate yields absent. -/
def spec_resolve_date (parse : String → Option PyDateTime)
    (dkvs : List (String × JValue)) (key : String) : Option PyDateTime :=
  let rdkvs : List (String × JValue) :=
    match lookupFirst dkvs "registryData" with
    | some (.obj r) => r
    | _ => []
  let rgkvs : List (String × JValue) :=
    match lookupFirst rdkvs "registry" with
    | some (.obj r) => r
    | _ => []
  let c1 := (lookupFirst dkvs key).getD .null
  let c2 := (lookupFirst rdkvs key).getD .null
  let c3 := (lookupFirst rgkvs key).getD .null
  let chosen := if truthy c1 then c1 else if truthy c2 then c2 else c3
  parseCandidate parse chosen

/-! ## Helper lemmas -/

theorem jget_obj (kvs : List (String × JValue)) (k : String) (d : JValue) :
    jget (.obj kvs) k d = .ok ((lookupFirst kvs k).getD d) := rfl

theorem bind_eq_ok {α β : Type} {x : Except PyExc α} {f : α → Except PyExc β} {b : β}
    (h : x.bind f = .ok b) : ∃ a, x = .ok a ∧ f a = .ok b := by
  cases x with
  | error e => exact absurd h (by simp [Except.bind])
  | ok a => exact ⟨a, rfl, h⟩

/-- Whenever domain normalization returns a record, its estimated-age field
is exactly the age computation applied to its registration-date field. -/
theorem parse_domain_age_shape (parse : String → Option PyDateTime) (now : Int)
    (data : JValue) (rec : DomainInformation)
    (h : parse_domain_information parse now data = .ok rec) :
    rec.estimated_domain_age =
      rec.registration_date.map (fun rd => ((now - rd.seconds).fdiv 86400).fdiv 365) := by
  unfold parse_domain_information domTail at h
  obtain ⟨wr, -, h⟩ := bind_eq_ok h
  obtain ⟨dn0, -, h⟩ := bind_eq_ok h
  obtain ⟨r0, -, h⟩ := bind_eq_ok h
  obtain ⟨rg0, -, h⟩ := bind_eq_ok h
  obtain ⟨regdate, -, h⟩ := bind_eq_ok h
  obtain ⟨expdate, -, h⟩ := bind_eq_ok h
  obtain ⟨hn, -, h⟩ := bind_eq_ok h
  obtain ⟨dn, -, h⟩ := bind_eq_ok h
  obtain ⟨rg, -, h⟩ := bind_eq_ok h
  cases h
  cases regdate <;> rfl

theorem parse_date_spec_eq (parse : String → Option PyDateTime)
    (dkvs : List (String × JValue)) (key : String) (hwf : wfDates dkvs = true) :
    _parse_date parse (.obj dkvs) key = .ok (spec_resolve_date parse dkvs key) := by
  unfold _parse_date spec_resolve_date
  unfold wfDates at hwf
  rcases hrd : lookupFirst dkvs "registryData" with - | rd
  · rw [hrd] at hwf
    cases ht1 : truthy ((lookupFirst dkvs key).getD .null) <;>
      simp [jget_obj, jmem, Except.bind, hrd, ht1, lookupFirst]
  · rw [hrd] at hwf
    cases rd
    case obj rdkvs =>
      simp only [wfOptObj] at hwf
      rcases hrg : lookupFirst rdkvs "registry" with - | rg
      · rw [hrg] at hwf
        cases ht1 : truthy ((lookupFirst dkvs key).getD .null) <;>
          cases ht2 : truthy ((lookupFirst rdkvs key).getD .null) <;>
            simp [jget_obj, jmem, Except.bind, hrd, hrg, ht1, ht2, lookupFirst]
      · rw [hrg] at hwf
        cases rg
        case obj rgkvs =>
          cases ht1 : truthy ((lookupFirst dkvs key).getD .null) <;>
            cases ht2 : truthy ((lookupFirst rdkvs key).getD .null) <;>
              simp [jget_obj, jmem, Except.bind, hrd, hrg, ht1, ht2, lookupFirst]
        all_goals simp [wfOptObj] at hwf
    all_goals simp at hwf

theorem strItems_collect_ok (v : JValue) (h : wfNS v = true) :
    ∃ ss, strItems (collectHostnames v) = .ok ss := by
  cases v <;> simp [collectHostnames, strItems] <;> try exact ⟨[], rfl⟩
  case arr es =>
    simp only [wfNS, List.all_eq_true] at h
    induction es with
    | nil => exact ⟨[], rfl⟩
    | cons e t ih =>
      obtain ⟨ss, hss⟩ := ih (fun x hx => h x (List.mem_cons_of_mem e hx))
      have he := h e (List.mem_cons_self e t)
      cases e <;> simp [List.filterMap_cons, strItems, hss, Except.map]
      case obj kvs =>
        rcases hh : lookupFirst kvs "hostName" with - | hv
        · simpa [hh] using ⟨ss, hss⟩
        · have he' : wfOptStr (lookupFirst kvs "hostName") = true := he
          rw [hh] at he'
          cases hv <;> simp [wfOptStr] at he' <;>
            simp [strItems, hss, Except.map]

theorem extract_ok_of_wf (kvs : List (String × JValue)) (h : wfHosts kvs = true) :
    ∃ s, _extract_hostnames (.obj kvs) = .ok s := by
  rw [wfHosts, Bool.and_eq_true] at h
  obtain ⟨hrd, htop⟩ := h
  unfold _extract_hostnames
  simp only [jget_obj, Except.bind]
  cases hemp : (collectHostnames ((lookupFirst kvs "nameServers").getD (.arr []))).isEmpty
  case false =>
    obtain ⟨ss, hss⟩ := strItems_collect_ok _ htop
    simp only [hemp, Bool.false_eq_true, if_false, Except.bind, hss]
    split
    · exact ⟨_, rfl⟩
    · exact ⟨_, rfl⟩
  case true =>
    simp only [hemp, if_true]
    rcases hlrd : lookupFirst kvs "registryData" with - | rd
    · simp [jmem, hlrd, Except.bind, hemp]
    · rw [hlrd] at hrd
      cases rd
      case obj rdkvs =>
        have hrd' : wfNS ((lookupFirst rdkvs "nameServers").getD (.arr [])) = true := hrd
        obtain ⟨ss, hss⟩ := strItems_collect_ok _ hrd'
        simp only [jmem, hlrd, Option.isSome_some, if_true, jget_obj, Except.bind,
          Option.getD_some, hss]
        cases hemp2 :
            (collectHostnames ((lookupFirst rdkvs "nameServers").getD (.arr []))).isEmpty
        · simp only [hemp2, Bool.false_eq_true, if_false, Except.bind, hss]
          split
          · exact ⟨_, rfl⟩
          · exact ⟨_, rfl⟩
        · simp only [hemp2, if_true]
          exact ⟨"", rfl⟩
      all_goals simp at hrd

theorem validateStr_ok_of_wf (o : Option JValue) (h : wfOptStr o = true) :
    ∃ d, validateStr (o.getD (.str "")) = .ok d := by
  rcases o with - | v
  · exact ⟨"", rfl⟩
  · cases v <;> simp [wfOptStr] at h <;> exact ⟨_, rfl⟩

theorem validateOptStr_ok_of_wf (o : Option JValue) (h : wfStrOrNull o = true) :
    ∃ d, validateOptStr (o.getD (.str "")) = .ok d := by
  rcases o with - | v
  · exact ⟨some "", rfl⟩
  · cases v <;> simp [wfStrOrNull] at h <;> exact ⟨_, rfl⟩

theorem domTail_ok (parse : String → Option PyDateTime) (now : Int)
    (wkvs : List (String × JValue)) (dnv rv : JValue)
    (hdn : ∃ d, validateStr dnv = .ok d)
    (hrv : ∃ o, validateOptStr rv = .ok o)
    (hdts : wfDates wkvs = true) (hhst : wfHosts wkvs = true) :
    ∃ rec, domTail parse now (.obj wkvs) dnv rv = .ok rec := by
  obtain ⟨d, hd⟩ := hdn
  obtain ⟨o, ho⟩ := hrv
  obtain ⟨hn, hhn⟩ := extract_ok_of_wf wkvs hhst
  unfold domTail
  rw [parse_date_spec_eq parse wkvs "createdDate" hdts,
      parse_date_spec_eq parse wkvs "expiresDate" hdts, hhn, hd, ho]
  simp only [Except.bind]
  exact ⟨_, rfl⟩

theorem parse_domain_ok_of_wf (parse : String → Option PyDateTime) (now : Int)
    (data : JValue) (hwf : wfDomainDoc data = true) :
    ∃ rec, parse_domain_information parse now data = .ok rec := by
  cases data
  case obj kvs =>
    have hwr : wfRecord ((lookupFirst kvs "WhoisRecord").getD (.obj [])) = true := hwf
    have hex : ∃ wkvs, (lookupFirst kvs "WhoisRecord").getD (.obj []) = .obj wkvs := by
      rcases hwrv : (lookupFirst kvs "WhoisRecord").getD (.obj []) with - | b | n | s | es | wkvs <;>
        rw [hwrv] at hwr <;>
          first
          | exact ⟨_, rfl⟩
          | exact absurd hwr (by simp [wfRecord])
    obtain ⟨wkvs, hwrv⟩ := hex
    rw [hwrv] at hwr
    have hwr' : (wfOptStr (lookupFirst wkvs "domainName") &&
        wfStrOrNull (lookupFirst wkvs "registrarName") && wfRegistrar wkvs &&
        wfDates wkvs && wfHosts wkvs) = true := hwr
    simp only [Bool.and_eq_true] at hwr'
    obtain ⟨⟨⟨⟨hdn, hrn⟩, hreg⟩, hdts⟩, hhst⟩ := hwr'
    unfold parse_domain_information
    simp only [jget_obj, hwrv, Except.bind]
    cases htr : truthy ((lookupFirst wkvs "registrarName").getD (.str ""))
    · simp only [htr, Bool.not_false, if_true]
      rcases hlr : lookupFirst wkvs "registrar" with - | rg
      · simp [jmem, hlr, Except.bind]
        exact domTail_ok parse now wkvs _ _ (validateStr_ok_of_wf _ hdn)
          (validateOptStr_ok_of_wf _ hrn) hdts hhst
      · unfold wfRegistrar at hreg
        rw [hlr] at hreg
        cases rg
        case obj rkvs =>
          have hreg' : wfStrOrNull (lookupFirst rkvs "name") = true := hreg
          simp [jmem, hlr, jget_obj, Except.bind]
          exact domTail_ok parse now wkvs _ _ (validateStr_ok_of_wf _ hdn)
            (validateOptStr_ok_of_wf _ hreg') hdts hhst
        all_goals simp at hreg
    · simp only [htr, Bool.not_true, Bool.false_eq_true, if_false, Except.bind]
      exact domTail_ok parse now wkvs _ _ (validateStr_ok_of_wf _ hdn)
        (validateOptStr_ok_of_wf _ hrn) hdts hhst
  all_goals simp [wfDomainDoc] at hwf

/-! ## Claim theorems -/

/-- Claim C3, counterexample: on the cited document the joined display
`"ns1.example.com, ns2.example.com"` is 32 characters, which exceeds 25, so
the hostname resolver truncates; it does not return the full joined
string. -/
theorem hostname_example_counterexample :
    _extract_hostnames (.obj [("nameServers",
        .arr [.str "ns1.example.com", .obj [("hostName", .str "ns2.example.com")]])]) ≠
      .ok "ns1.example.com, ns2.example.com" := by
  intro h
  have he : _extract_hostnames (.obj [("nameServers",
      .arr [.str "ns1.example.com", .obj [("hostName", .str "ns2.example.com")]])]) =
      .ok "ns1.example.com, ns2.e..." := rfl
  rw [he] at h
  injection h with h
  exact (by decide : ("ns1.example.com, ns2.e..." : String) ≠
    "ns1.example.com, ns2.example.com") h

/-- Claim C3 (amended): for the document whose top-level `nameServers` list
is `["ns1.example.com", {"hostName": "ns2.example.com"}]`, the hostname
resolver returns `"ns1.example.com, ns2.e..."`: the joined display is 32
characters, exceeding 25, so it is truncated to its first 22 characters
plus `"..."`. -/
theorem hostname_example_truncated :
    _extract_hostnames (.obj [("nameServers",
        .arr [.str "ns1.example.com", .obj [("hostName", .str "ns2.example.com")]])]) =
      .ok "ns1.example.com, ns2.e..." := rfl

/-- Claim C9: every failing upstream fetch — an `httpx.HTTPError` (non-2xx
or network failure) or a non-JSON body — makes the lookup fail with a
server-side 500 whose detail carries the original transport failure
message, and no facts record is returned. -/
theorem upstream_failure_is_500 (parse : String → Option PyDateTime) (now : Int)
    (info_type msg : String) :
    ((get_whois_data parse now info_type (.httpError msg)).outcome =
        .error (.httpException 500 ("Failed to fetch domain information: " ++ msg)) ∧
      ∀ v, (get_whois_data parse now info_type (.httpError msg)).outcome ≠ .ok v) ∧
    ((get_whois_data parse now info_type (.invalidJson msg)).outcome =
        .error (.httpException 500 msg) ∧
      ∀ v, (get_whois_data parse now info_type (.invalidJson msg)).outcome ≠ .ok v) := by
  refine ⟨⟨rfl, fun v h => ?_⟩, ⟨rfl, fun v h => ?_⟩⟩ <;> exact Except.noConfusion h

/-- Claim C1, counterexample: with `info_type = "invalid"`, the upstream
fetch is attempted first — if it fails, the reported failure is the
upstream 500, with no invalid-`info_type` rejection — and when the fetch
succeeds, the invalid `info_type` surfaces as a 500 server-side error
(the handler's own 400 is swallowed by its catch-all), not as a
client-side rejection. -/
theorem invalid_info_type_counterexample :
    (get_whois_data (fun _ => none) 0 "invalid" (.httpError "connect timeout")).fetchAttempted
        = true ∧
    (get_whois_data (fun _ => none) 0 "invalid" (.httpError "connect timeout")).outcome =
      .error (.httpException 500 "Failed to fetch domain information: connect timeout") ∧
    (get_whois_data (fun _ => none) 0 "invalid" (.success (.obj []))).outcome =
      .error (.httpException 500
        "400: Invalid info_type: invalid. Must be 'domain' or 'contact'") :=
  ⟨rfl, rfl, rfl⟩

/-- Claim C1 (amended): for every request whose `info_type` is neither
`domain` nor `contact` (case-insensitively), the upstream fetch is always
attempted; when the fetch succeeds the handler fails with a 500 server-side
error whose detail wraps the internally raised 400 invalid-`info_type`
rejection, and when the fetch fails the upstream failure is reported
instead of the invalid-`info_type` rejection. -/
theorem invalid_info_type_behavior (parse : String → Option PyDateTime) (now : Int)
    (info_type msg : String) (doc : JValue)
    (h1 : pyLower info_type ≠ "domain") (h2 : pyLower info_type ≠ "contact") :
    (∀ fetch, (get_whois_data parse now info_type fetch).fetchAttempted = true) ∧
    (get_whois_data parse now info_type (.success doc)).outcome =
      .error (.httpException 500
        ("400: Invalid info_type: " ++ info_type ++ ". Must be 'domain' or 'contact'")) ∧
    (get_whois_data parse now info_type (.httpError msg)).outcome =
      .error (.httpException 500 ("Failed to fetch domain information: " ++ msg)) := by
  refine ⟨fun fetch => rfl, ?_, rfl⟩
  simp only [get_whois_data, fetch_domain_data, Except.bind, if_neg h1, if_neg h2]
  rfl

/-- Claim C1 witness: concrete instance of the amended behavior at
`info_type = "invalid"`. -/
theorem invalid_info_type_behavior_witness :
    (get_whois_data (fun _ => none) 0 "invalid" (.httpError "x")).fetchAttempted = true ∧
    (get_whois_data (fun _ => none) 0 "invalid" (.success (.obj []))).outcome =
      .error (.httpException 500
        ("400: Invalid info_type: " ++ "invalid" ++ ". Must be 'domain' or 'contact'")) :=
  ⟨(invalid_info_type_behavior (fun _ => none) 0 "invalid" "x" (.obj [])
      (by decide) (by decide)).1 (.httpError "x"),
   (invalid_info_type_behavior (fun _ => none) 0 "invalid" "x" (.obj [])
      (by decide) (by decide)).2.1⟩

/-- Claim C6: with no role-specific contact object anywhere but a top-level
`registrant` object carrying a name, all three contact roles resolve to
that name; and in general the contact resolver takes the first non-empty
value among `registryData[role + "Contact"]`, the top-level
`doc[role + "Contact"]`, and finally the generic top-level `registrant`
object. -/
theorem contact_generic_registrant_fallback :
    (∀ s : String,
      parse_contact_information
          (.obj [("WhoisRecord", .obj [("registrant", .obj [("name", .str s)])])]) =
        .ok ⟨.str s, .str s, .str s, .str ""⟩) ∧
    (∀ (dkvs rkvs : List (String × JValue)) (role : String),
      _get_contact_info (.obj dkvs) (.obj rkvs) role =
        .ok (if truthy ((lookupFirst rkvs (role ++ "Contact")).getD (.obj [])) then
               (lookupFirst rkvs (role ++ "Contact")).getD (.obj [])
             else if truthy ((lookupFirst dkvs (role ++ "Contact")).getD (.obj [])) then
               (lookupFirst dkvs (role ++ "Contact")).getD (.obj [])
             else (lookupFirst dkvs "registrant").getD (.obj []))) := by
  constructor
  · intro s; rfl
  · intro dkvs rkvs role
    simp only [_get_contact_info, jget_obj, Except.bind]
    cases hc1 : truthy ((lookupFirst rkvs (role ++ "Contact")).getD (.obj [])) <;>
      cases hc2 : truthy ((lookupFirst dkvs (role ++ "Contact")).getD (.obj [])) <;>
        simp [hc1, hc2, Except.bind]

/-- Claim C4: taking a year as the code's own 365-day unit, a registration
date exactly 10 years (3650 days) before "now" yields an estimated age of
10, and 10 years minus one day (3649 days) yields 9. -/
theorem ten_year_age_boundary (now : Int) :
    (parse_domain_information (fun _ => some ⟨now - 3650 * 86400, none⟩) now
        (.obj [("WhoisRecord", .obj [("createdDate", .str "2014-05-01")])])).map
      (fun r => r.estimated_domain_age) = .ok (some 10) ∧
    (parse_domain_information (fun _ => some ⟨now - 3649 * 86400, none⟩) now
        (.obj [("WhoisRecord", .obj [("createdDate", .str "2014-05-01")])])).map
      (fun r => r.estimated_domain_age) = .ok (some 9) := by
  have r10 : (parse_domain_information (fun _ => some ⟨now - 3650 * 86400, none⟩) now
      (.obj [("WhoisRecord", .obj [("createdDate", .str "2014-05-01")])])).map
      (fun r => r.estimated_domain_age) =
      .ok (some (((now - (now - 3650 * 86400)).fdiv 86400).fdiv 365)) := rfl
  have r9 : (parse_domain_information (fun _ => some ⟨now - 3649 * 86400, none⟩) now
      (.obj [("WhoisRecord", .obj [("createdDate", .str "2014-05-01")])])).map
      (fun r => r.estimated_domain_age) =
      .ok (some (((now - (now - 3649 * 86400)).fdiv 86400).fdiv 365)) := rfl
  have e10 : now - (now - 3650 * 86400) = 3650 * 86400 := by ring
  have e9 : now - (now - 3649 * 86400) = 3649 * 86400 := by ring
  have a10 : (((3650 * 86400 : Int)).fdiv 86400).fdiv 365 = 10 := by decide
  have a9 : (((3649 * 86400 : Int)).fdiv 86400).fdiv 365 = 9 := by decide
  constructor
  · rw [r10, e10, a10]
  · rw [r9, e9, a9]

/-- Claim C5: whenever domain normalization produces a record, the
estimated-age field is present exactly when the registration-date field is,
and when present it equals `(days between now and the registration date)
// 365` — day count and year count both by integer floor division, the
day count being the `timedelta.days` of the naive subtraction. -/
theorem age_present_iff_registration (parse : String → Option PyDateTime) (now : Int)
    (data : JValue) (rec : DomainInformation)
    (h : parse_domain_information parse now data = .ok rec) :
    (rec.estimated_domain_age.isSome ↔ rec.registration_date.isSome) ∧
    ∀ rd, rec.registration_date = some rd →
      rec.estimated_domain_age = some (((now - rd.seconds).fdiv 86400).fdiv 365) := by
  have hs := parse_domain_age_shape parse now data rec h
  constructor
  · rw [hs]; cases rec.registration_date <;> simp
  · intro rd hrd; rw [hs, hrd]; rfl

/-- Claim C5 witness: a concrete document whose registration date resolves
to epoch-0 with "now" 730 days later, giving an estimated age of 2. -/
theorem age_present_iff_registration_witness :
    (((⟨"", some "", some ⟨0, none⟩, none, some 2, some ""⟩ :
        DomainInformation).estimated_domain_age).isSome ↔
      ((⟨"", some "", some ⟨0, none⟩, none, some 2, some ""⟩ :
        DomainInformation).registration_date).isSome) ∧
    (⟨"", some "", some ⟨0, none⟩, none, some 2, some ""⟩ :
        DomainInformation).estimated_domain_age =
      some (((730 * 86400 - (⟨0, none⟩ : PyDateTime).seconds).fdiv 86400).fdiv 365) :=
  ⟨(age_present_iff_registration (fun _ => some ⟨0, none⟩) (730 * 86400)
      (.obj [("WhoisRecord", .obj [("createdDate", .str "1970-01-01")])])
      ⟨"", some "", some ⟨0, none⟩, none, some 2, some ""⟩ (by rfl)).1,
   (age_present_iff_registration (fun _ => some ⟨0, none⟩) (730 * 86400)
      (.obj [("WhoisRecord", .obj [("createdDate", .str "1970-01-01")])])
      ⟨"", some "", some ⟨0, none⟩, none, some 2, some ""⟩ (by rfl)).2 ⟨0, none⟩ rfl⟩

/-- Claim C10: when the resolved registration date lies strictly in the
future of "now", normalization still produces a record whose estimated age
is present and strictly negative (the floor of the negative day difference
divided by 365). -/
theorem future_registration_negative_age (parse : String → Option PyDateTime)
    (now : Int) (data : JValue) (rec : DomainInformation) (rd : PyDateTime)
    (h : parse_domain_information parse now data = .ok rec)
    (hrd : rec.registration_date = some rd)
    (hfut : now < rd.seconds) :
    rec.estimated_domain_age = some (((now - rd.seconds).fdiv 86400).fdiv 365) ∧
    ((now - rd.seconds).fdiv 86400).fdiv 365 < 0 := by
  have hs := parse_domain_age_shape parse now data rec h
  refine ⟨by rw [hs, hrd]; rfl, ?_⟩
  have hd : (now - rd.seconds).fdiv 86400 < 0 :=
    Int.fdiv_neg' (by omega) (by decide)
  exact Int.fdiv_neg' hd (by decide)

/-- Claim C10 witness: registration date one day in the future of
"now" = 0 gives estimated age -1. -/
theorem future_registration_negative_age_witness :
    (⟨"", some "", some ⟨86400, none⟩, none, some (-1), some ""⟩ :
        DomainInformation).estimated_domain_age =
      some ((((0 : Int) - (⟨86400, none⟩ : PyDateTime).seconds).fdiv 86400).fdiv 365) ∧
    (((0 : Int) - (⟨86400, none⟩ : PyDateTime).seconds).fdiv 86400).fdiv 365 < 0 :=
  future_registration_negative_age (fun _ => some ⟨86400, none⟩) 0
    (.obj [("WhoisRecord", .obj [("createdDate", .str "1970-01-02")])])
    ⟨"", some "", some ⟨86400, none⟩, none, some (-1), some ""⟩ ⟨86400, none⟩
    (by rfl) rfl (by decide)

theorem collectHostnames_map_str (hs : List String) :
    collectHostnames (.arr (hs.map .str)) = hs.map .str := by
  simp only [collectHostnames, List.filterMap_map]
  exact List.filterMap_eq_map _ ▸ rfl

theorem strItems_map_str (hs : List String) : strItems (hs.map .str) = .ok hs := by
  induction hs with
  | nil => rfl
  | cons a t ih => simp [strItems, ih, Except.map]

theorem extract_on_ns (ns : JValue) :
    _extract_hostnames (.obj [("nameServers", ns)]) =
      if (collectHostnames ns).isEmpty then .ok ""
      else (strItems (collectHostnames ns)).bind fun strs =>
        if (String.intercalate ", " strs).length > 25 then
          .ok (pyTake (String.intercalate ", " strs) 22 ++ "...")
        else .ok (String.intercalate ", " strs) := by
  unfold _extract_hostnames
  cases hc : (collectHostnames ns).isEmpty <;>
    simp [jget_obj, jmem, lookupFirst, Except.bind, hc]

/-- Claim C8: for every hostname list whose joined display (", "-joined)
exceeds 25 characters, the hostname resolver returns exactly the first 22
characters of the joined string followed by "...", which is 25 characters
long. -/
theorem hostname_truncation (hs : List String)
    (h : 25 < (String.intercalate ", " hs).length) :
    _extract_hostnames (.obj [("nameServers", .arr (hs.map .str))]) =
      .ok (pyTake (String.intercalate ", " hs) 22 ++ "...") ∧
    (pyTake (String.intercalate ", " hs) 22 ++ "...").length = 25 := by
  obtain ⟨a, t, rfl⟩ : ∃ a t, hs = a :: t := by
    cases hs with
    | nil => exact absurd h (by decide)
    | cons a t => exact ⟨a, t, rfl⟩
  constructor
  · rw [extract_on_ns, collectHostnames_map_str, strItems_map_str]
    simp only [List.map_cons, List.isEmpty_cons, Bool.false_eq_true, if_false, Except.bind]
    rw [if_pos h]
  · have h22 : (pyTake (String.intercalate ", " (a :: t)) 22).length = 22 := by
      show ((String.intercalate ", " (a :: t)).data.take 22).length = 22
      rw [List.length_take]
      have h' : 25 < (String.intercalate ", " (a :: t)).data.length := h
      omega
    rw [String.length_append, h22]
    decide

/-- Claim C8 witness: two 14-character hostnames join to 30 characters,
which is truncated to 25. -/
theorem hostname_truncation_witness :
    _extract_hostnames (.obj [("nameServers",
        .arr (["aaaaaaaaaaaaaa", "bbbbbbbbbbbbbb"].map .str))]) =
      .ok (pyTake (String.intercalate ", " ["aaaaaaaaaaaaaa", "bbbbbbbbbbbbbb"]) 22 ++ "...") ∧
    (pyTake (String.intercalate ", " ["aaaaaaaaaaaaaa", "bbbbbbbbbbbbbb"]) 22 ++ "...").length
      = 25 :=
  hostname_truncation ["aaaaaaaaaaaaaa", "bbbbbbbbbbbbbb"] (by decide)


/-- Claim C2, counterexample: a document whose `WhoisRecord.registryData`
holds a string instead of an object makes domain normalization raise
`AttributeError` (the `.get` chain of `_parse_date` is applied to a
non-dict), aborting the request instead of degrading the field. -/
theorem normalizer_raises_counterexample :
    parse_domain_information (fun _ => none) 0
        (.obj [("WhoisRecord", .obj [("registryData", .str "oops")])]) =
      .error .attributeError := by rfl

/-- Claim C2 (amended): domain normalization returns a record without
raising for every raw document whose traversed intermediate containers are
well-typed — `WhoisRecord`, `registrar`, `registryData` and
`registryData.registry` objects when present, name-server entries joinable,
and string-typed `domainName`/registrar leaves; wrong-typed or absent leaf
values (dates, name servers) still degrade to absent/empty. A wrong-typed
intermediate container, however, raises instead of degrading. -/
theorem normalizer_total_on_wf (parse : String → Option PyDateTime) (now : Int)
    (data : JValue) (hwf : wfDomainDoc data = true) :
    ∃ rec, parse_domain_information parse now data = .ok rec :=
  parse_domain_ok_of_wf parse now data hwf

/-- Claim C2 witness: a well-formed document with a wrong-typed
`createdDate` leaf (a number) and a wrong-typed `nameServers` leaf (a
number), both of which degrade rather than abort. -/
theorem normalizer_total_on_wf_witness :
    wfDomainDoc (.obj [("WhoisRecord", .obj [("domainName", .str "ex.com"),
        ("createdDate", .num 5), ("nameServers", .num 3)])]) = true ∧
    ∃ rec, parse_domain_information (fun _ => none) 0
        (.obj [("WhoisRecord", .obj [("domainName", .str "ex.com"),
          ("createdDate", .num 5), ("nameServers", .num 3)])]) = .ok rec :=
  ⟨by rfl,
   normalizer_total_on_wf (fun _ => none) 0
     (.obj [("WhoisRecord", .obj [("domainName", .str "ex.com"),
       ("createdDate", .num 5), ("nameServers", .num 3)])]) (by rfl)⟩

/-- Claim C7, counterexample: on a document whose `registryData` is a
string, the date resolver raises `AttributeError` rather than yielding an
absent date, so the resolution rule does not hold for every raw
document. -/
theorem date_resolver_counterexample :
    _parse_date (fun _ => none) (.obj [("registryData", .str "x")]) "createdDate" =
      .error .attributeError := by rfl

/-- Claim C7 (amended): for every document object whose `registryData`
(and nested `registry`), when present, are objects, the date resolver
returns — without error — the first non-empty candidate of
`doc[key]`, `doc["registryData"][key]`,
`doc["registryData"]["registry"][key]`, parsed permissively with any
timezone offset discarded; a parse failure or the absence of every
candidate yields absent. -/
theorem date_resolver_follows_spec (parse : String → Option PyDateTime)
    (dkvs : List (String × JValue)) (key : String) (hwf : wfDates dkvs = true) :
    _parse_date parse (.obj dkvs) key = .ok (spec_resolve_date parse dkvs key) :=
  parse_date_spec_eq parse dkvs key hwf

/-- Claim C7 witness: a date present only under `registryData`, parsed by
an oracle that reports a timezone offset; the resolver finds it in the
second candidate position and strips the offset. -/
theorem date_resolver_follows_spec_witness :
    wfDates [("registryData", JValue.obj [("createdDate", .str "2020-01-02")])] = true ∧
    _parse_date (fun _ => some ⟨42, some 3600⟩)
        (.obj [("registryData", .obj [("createdDate", .str "2020-01-02")])])
        "createdDate" =
      .ok (spec_resolve_date (fun _ => some ⟨42, some 3600⟩)
        [("registryData", .obj [("createdDate", .str "2020-01-02")])] "createdDate") ∧
    spec_resolve_date (fun _ => some ⟨42, some 3600⟩)
        [("registryData", .obj [("createdDate", .str "2020-01-02")])] "createdDate" =
      some ⟨42, none⟩ :=
  ⟨rfl,
   date_resolver_follows_spec (fun _ => some ⟨42, some 3600⟩)
     [("registryData", .obj [("createdDate", .str "2020-01-02")])] "createdDate" rfl,
   by rfl⟩

end Whois
